import Mathlib

/-!
Verification development for the solarRouter sketch (src/solarRouter.ino).

The sketch is compiled with STANDARD_TIC defined (line 73), so the whole
embedding models the Linky standard mode: field separator TAB (0x09),
six-byte label SINSTS, and the checksum covering every captured byte that
precedes the checksum byte.

Modelling conventions:
  - bytes are `Nat` (the loop masks every received byte with `& 0x7F`,
    line 689, so values are 0..127 in practice; the definitions work on
    arbitrary naturals);
  - the C `char buffer[20]` together with `int buff_index` becomes a
    `List Nat` of length 20 plus a `Nat` index; `buffer[i] = c` becomes
    `List.set`; resets only zero the index, the array contents survive,
    exactly as in the C code (this matters because `getData` reads the
    array after the index has been reset);
  - `int` quantities that can go negative in principle are `Int`;
  - `unsigned long` (millis) quantities are `Nat`, with the wrap-around
    subtraction `a - b` on `unsigned long` embedded as `uSub` which works
    modulo 2^32;
  - C `float` accumulators are embedded as exact rationals `ℚ`; the
    numerical claims are settled in this exact-arithmetic model.
-/

/-- ASCII NUL (line 189). -/
def NUL : Nat := 0x00
/-- ASCII line feed (line 190). -/
def LF : Nat := 0x0A
/-- ASCII carriage return (line 191). -/
def CR : Nat := 0x0D
/-- ASCII tabulation (line 192). -/
def TAB : Nat := 0x09
/-- Field separator in standard TIC mode (line 197): a tabulation. -/
def FIELD_SEPARATOR : Nat := TAB

/-- Upper-case label bytes of the SINSTS message (lines 207-212). -/
def C1 : Nat := 0x53
def C2 : Nat := 0x49
def C3 : Nat := 0x4E
def C4 : Nat := 0x53
def C5 : Nat := 0x54
def C6 : Nat := 0x53
/-- Lower-case label bytes of the sinsts message (lines 213-218). -/
def c1 : Nat := 0x73
def c2 : Nat := 0x69
def c3 : Nat := 0x6E
def c4 : Nat := 0x73
def c5 : Nat := 0x74
def c6 : Nat := 0x73

/-- Parser states of the message state machine (lines 169-184).
One constructor per `WAIT_*` define, in the same order. -/
inductive MsgState where
  | waitLF
  | waitC1
  | waitC2
  | waitC3
  | waitC4
  | waitC5
  | waitC6
  | waitSeparator1
  | waitD1
  | waitD2
  | waitD3
  | waitD4
  | waitD5
  | waitSeparator2
  | waitChecksum
  | waitCR
deriving DecidableEq

/-- MAX_BUFFER_LENGTH (line 163). -/
def MAX_BUFFER_LENGTH : Nat := 20

/-- Decoder state: the globals `msgState` (line 186), `buff_index`
(line 165) and `buffer` (line 164). The buffer is a list of fixed
length `MAX_BUFFER_LENGTH`. -/
structure DecoderState where
  msgState : MsgState
  buffIndex : Nat
  buffer : List Nat
deriving DecidableEq

/-- Initial decoder state: `msgState = WAIT_LF`, `buff_index = 0`, and a
zero-initialised global array. -/
def initDecoder : DecoderState :=
  ⟨MsgState.waitLF, 0, List.replicate MAX_BUFFER_LENGTH 0⟩

/-- `buffer[buff_index] = c; buff_index++;` followed by `msgState = m`:
the store-and-advance step every accepting branch of `isNewMsgInBuffer`
performs (e.g. lines 248-250). -/
def storeByte (s : DecoderState) (m : MsgState) (c : Nat) : DecoderState :=
  ⟨m, s.buffIndex + 1, s.buffer.set s.buffIndex c⟩

/-- `msgState = WAIT_LF; buff_index = 0;`: the reset every rejecting
branch performs (e.g. lines 253-254). The array contents are untouched. -/
def resetDec (s : DecoderState) : DecoderState :=
  ⟨MsgState.waitLF, 0, s.buffer⟩

/-- Checksum validation (`isChecksumGood`, lines 420-446, standard-TIC
branch): the trailing captured byte must equal the sum of all captured
bytes that precede it, masked to the low 6 bits, plus 0x20. The C loop
`for (i = 0; i < buff_index - 1; i++) sum += buffer[i];` is the sum of
the first `buff_index - 1` buffer entries. -/
def isChecksumGood (s : DecoderState) : Bool :=
  if s.buffIndex = 0 then
    false
  else
    decide (s.buffer.getD (s.buffIndex - 1) 0 =
      ((s.buffer.take (s.buffIndex - 1)).sum &&& 0x3F) + 0x20)

/-- One byte of the decoder (`isNewMsgInBuffer`, lines 234-415,
standard-TIC branches): returns the `ret` flag and the updated decoder
state. A NUL byte is ignored (lines 237-239); in `WAIT_LF` a byte other
than LF matches no branch and leaves everything unchanged. -/
def isNewMsgInBuffer (s : DecoderState) (c : Nat) : Bool × DecoderState :=
  if c = NUL then (false, s)
  else
    match s.msgState with
    | MsgState.waitLF =>
        if c = LF then (false, ⟨MsgState.waitC1, 0, s.buffer⟩) else (false, s)
    | MsgState.waitC1 =>
        if c = C1 ∨ c = c1 then (false, storeByte s MsgState.waitC2 c)
        else (false, resetDec s)
    | MsgState.waitC2 =>
        if c = C2 ∨ c = c2 then (false, storeByte s MsgState.waitC3 c)
        else (false, resetDec s)
    | MsgState.waitC3 =>
        if c = C3 ∨ c = c3 then (false, storeByte s MsgState.waitC4 c)
        else (false, resetDec s)
    | MsgState.waitC4 =>
        if c = C4 ∨ c = c4 then (false, storeByte s MsgState.waitC5 c)
        else (false, resetDec s)
    | MsgState.waitC5 =>
        if c = C5 ∨ c = c5 then (false, storeByte s MsgState.waitC6 c)
        else (false, resetDec s)
    | MsgState.waitC6 =>
        if c = C6 ∨ c = c6 then (false, storeByte s MsgState.waitSeparator1 c)
        else (false, resetDec s)
    | MsgState.waitSeparator1 =>
        if c = FIELD_SEPARATOR then (false, storeByte s MsgState.waitD1 c)
        else (false, resetDec s)
    | MsgState.waitD1 =>
        if 0x30 ≤ c ∧ c ≤ 0x39 then (false, storeByte s MsgState.waitD2 c)
        else (false, resetDec s)
    | MsgState.waitD2 =>
        if 0x30 ≤ c ∧ c ≤ 0x39 then (false, storeByte s MsgState.waitD3 c)
        else (false, resetDec s)
    | MsgState.waitD3 =>
        if 0x30 ≤ c ∧ c ≤ 0x39 then (false, storeByte s MsgState.waitD4 c)
        else (false, resetDec s)
    | MsgState.waitD4 =>
        if 0x30 ≤ c ∧ c ≤ 0x39 then (false, storeByte s MsgState.waitD5 c)
        else (false, resetDec s)
    | MsgState.waitD5 =>
        if 0x30 ≤ c ∧ c ≤ 0x39 then (false, storeByte s MsgState.waitSeparator2 c)
        else (false, resetDec s)
    | MsgState.waitSeparator2 =>
        if c = FIELD_SEPARATOR then (false, storeByte s MsgState.waitChecksum c)
        else (false, resetDec s)
    | MsgState.waitChecksum =>
        (false, storeByte s MsgState.waitCR c)
    | MsgState.waitCR =>
        if c = CR then (isChecksumGood s, resetDec s)
        else (false, resetDec s)

/-- Feed a list of bytes through the decoder, collecting the returned
flags in order, starting from state `s`. -/
def feedMany (s : DecoderState) (l : List Nat) : List Bool × DecoderState :=
  match l with
  | [] => ([], s)
  | cb :: rest =>
      let r := isNewMsgInBuffer s cb
      let rs := feedMany r.2 rest
      (r.1 :: rs.1, rs.2)

/-- The per-state acceptance condition of `isNewMsgInBuffer`: the guard
of the accepting branch of each `else if (msgState == ...)` block
(lines 242-412). The checksum position accepts every byte (lines
395-399); `WAIT_LF` only reacts to LF. -/
def acceptsAt (m : MsgState) (c : Nat) : Bool :=
  match m with
  | MsgState.waitLF => decide (c = LF)
  | MsgState.waitC1 => decide (c = C1 ∨ c = c1)
  | MsgState.waitC2 => decide (c = C2 ∨ c = c2)
  | MsgState.waitC3 => decide (c = C3 ∨ c = c3)
  | MsgState.waitC4 => decide (c = C4 ∨ c = c4)
  | MsgState.waitC5 => decide (c = C5 ∨ c = c5)
  | MsgState.waitC6 => decide (c = C6 ∨ c = c6)
  | MsgState.waitSeparator1 => decide (c = FIELD_SEPARATOR)
  | MsgState.waitD1 => decide (0x30 ≤ c ∧ c ≤ 0x39)
  | MsgState.waitD2 => decide (0x30 ≤ c ∧ c ≤ 0x39)
  | MsgState.waitD3 => decide (0x30 ≤ c ∧ c ≤ 0x39)
  | MsgState.waitD4 => decide (0x30 ≤ c ∧ c ≤ 0x39)
  | MsgState.waitD5 => decide (0x30 ≤ c ∧ c ≤ 0x39)
  | MsgState.waitSeparator2 => decide (c = FIELD_SEPARATOR)
  | MsgState.waitChecksum => true
  | MsgState.waitCR => decide (c = CR)

/-- Claim C10: in the checksum-position state the decoder accepts any
non-null byte, stores it at the current buffer index, and advances to the
await-CR state; the byte value itself is unconstrained. -/
theorem C10_checksum_position_accepts_any (s : DecoderState) (c : Nat)
    (hm : s.msgState = MsgState.waitChecksum) (hc : c ≠ 0) :
    isNewMsgInBuffer s c =
      (false, ⟨MsgState.waitCR, s.buffIndex + 1, s.buffer.set s.buffIndex c⟩) := by
  obtain ⟨ms, bi, buf⟩ := s
  subst hm
  simp [isNewMsgInBuffer, storeByte, NUL, hc]

/-- Witness for C10 at the concrete state reached after
`LF S I N S T S TAB 0 0 1 2 3 TAB` with the stored byte CR (0x0D). -/
theorem C10_witness :
    isNewMsgInBuffer ⟨MsgState.waitChecksum, 13,
        [0x53, 0x49, 0x4E, 0x53, 0x54, 0x53, 9, 48, 48, 49, 50, 51, 9,
         0, 0, 0, 0, 0, 0, 0]⟩ 0x0D =
      (false, ⟨MsgState.waitCR, 14,
        [0x53, 0x49, 0x4E, 0x53, 0x54, 0x53, 9, 48, 48, 49, 50, 51, 9,
         0x0D, 0, 0, 0, 0, 0, 0]⟩) := by
  have h := C10_checksum_position_accepts_any
    ⟨MsgState.waitChecksum, 13,
      [0x53, 0x49, 0x4E, 0x53, 0x54, 0x53, 9, 48, 48, 49, 50, 51, 9,
       0, 0, 0, 0, 0, 0, 0]⟩ 0x0D rfl (by decide)
  rw [h]
  decide

/-- Claim C2: in every decoder state other than await-LF, a non-null byte
that fails the acceptance condition of that grammar position makes the
decoder return false, go to await-LF, and zero the buffer index (the
array contents are untouched); no frame-ready signal is produced. -/
theorem C2_mismatch_resets (s : DecoderState) (c : Nat)
    (hm : s.msgState ≠ MsgState.waitLF) (hc : c ≠ 0)
    (hacc : acceptsAt s.msgState c = false) :
    isNewMsgInBuffer s c = (false, ⟨MsgState.waitLF, 0, s.buffer⟩) := by
  obtain ⟨ms, bi, buf⟩ := s
  cases ms <;>
    simp_all [isNewMsgInBuffer, acceptsAt, resetDec, NUL, LF, CR,
      FIELD_SEPARATOR, TAB, C1, c1, C2, c2, C3, c3, C4, c4, C5, c5, C6, c6]

/-- Witness for C2: the byte `A` (0x41) in the first-label-character
state resets the decoder. -/
theorem C2_witness :
    isNewMsgInBuffer ⟨MsgState.waitC1, 0, List.replicate 20 0⟩ 0x41 =
      (false, ⟨MsgState.waitLF, 0, List.replicate 20 0⟩) := by
  have h := C2_mismatch_resets ⟨MsgState.waitC1, 0, List.replicate 20 0⟩ 0x41
    (by decide) (by decide) (by decide)
  rw [h]

/-- Counterexample to claim C6 as stated: feeding LF while the decoder is
in the first-label-character state does not move it to the label-matching
state; the LF is consumed by the mismatch branch and the decoder falls
back to await-LF. -/
theorem C6_counterexample :
    (isNewMsgInBuffer ⟨MsgState.waitC1, 0, List.replicate 20 0⟩ 0x0A).2.msgState ≠
      MsgState.waitC1 ∧
    (isNewMsgInBuffer ⟨MsgState.waitC1, 0, List.replicate 20 0⟩ 0x0A).2.msgState =
      MsgState.waitLF := by
  decide

/-- Claim C6 (amended): an LF restarts frame capture only from the
await-LF state; in every other state except checksum-position the LF is
consumed as a mismatching byte and merely resets the decoder to await-LF
with buffer index 0, and at checksum-position the LF is captured as the
checksum byte, advancing to await-CR. -/
theorem C6_lf_behavior (s : DecoderState) :
    (s.msgState = MsgState.waitLF →
      isNewMsgInBuffer s LF = (false, ⟨MsgState.waitC1, 0, s.buffer⟩)) ∧
    (s.msgState = MsgState.waitChecksum →
      isNewMsgInBuffer s LF =
        (false, ⟨MsgState.waitCR, s.buffIndex + 1, s.buffer.set s.buffIndex LF⟩)) ∧
    (s.msgState ≠ MsgState.waitLF → s.msgState ≠ MsgState.waitChecksum →
      isNewMsgInBuffer s LF = (false, ⟨MsgState.waitLF, 0, s.buffer⟩)) := by
  obtain ⟨ms, bi, buf⟩ := s
  cases ms <;>
    simp [isNewMsgInBuffer, storeByte, resetDec, NUL, LF, CR,
      FIELD_SEPARATOR, TAB, C1, c1, C2, c2, C3, c3, C4, c4, C5, c5, C6, c6]

/-- Witness for C6 (amended): LF from the await-LF state starts label
matching. -/
theorem C6_witness :
    isNewMsgInBuffer ⟨MsgState.waitLF, 0, List.replicate 20 0⟩ LF =
      (false, ⟨MsgState.waitC1, 0, List.replicate 20 0⟩) :=
  (C6_lf_behavior ⟨MsgState.waitLF, 0, List.replicate 20 0⟩).1 rfl

/-- Buffer index dictated by each parser state: the number of bytes
captured since the last frame start when the decoder sits in that
state. -/
def stateIdx : MsgState → Nat
  | MsgState.waitLF => 0
  | MsgState.waitC1 => 0
  | MsgState.waitC2 => 1
  | MsgState.waitC3 => 2
  | MsgState.waitC4 => 3
  | MsgState.waitC5 => 4
  | MsgState.waitC6 => 5
  | MsgState.waitSeparator1 => 6
  | MsgState.waitD1 => 7
  | MsgState.waitD2 => 8
  | MsgState.waitD3 => 9
  | MsgState.waitD4 => 10
  | MsgState.waitD5 => 11
  | MsgState.waitSeparator2 => 12
  | MsgState.waitChecksum => 13
  | MsgState.waitCR => 14

/-- Decoder invariant: the buffer index equals the count of captured
bytes dictated by the parser state, and the array keeps its fixed
capacity. -/
def DecInv (s : DecoderState) : Prop :=
  s.buffIndex = stateIdx s.msgState ∧ s.buffer.length = MAX_BUFFER_LENGTH

theorem decInv_step (s : DecoderState) (c : Nat) (h : DecInv s) :
    DecInv (isNewMsgInBuffer s c).2 := by
  obtain ⟨ms, bi, buf⟩ := s
  obtain ⟨h1, h2⟩ := h
  simp only [DecInv] at h1 h2 ⊢
  cases ms <;>
    simp_all [isNewMsgInBuffer, storeByte, resetDec, stateIdx, NUL] <;>
    split_ifs <;>
    simp_all [stateIdx]

theorem decInv_run (l : List Nat) (s : DecoderState) (h : DecInv s) :
    DecInv (feedMany s l).2 := by
  induction l generalizing s with
  | nil => simpa [feedMany] using h
  | cons cb rest ih => simpa [feedMany] using ih _ (decInv_step s cb h)

/-- Claim C9: for any input byte stream fed from the initial state, the
buffer index stays at most 14 (the captured length of a complete
standard-TIC frame), strictly below the buffer capacity of 20, and the
buffer keeps its length of 20, so every `buffer[buff_index]` store is in
bounds. -/
theorem C9_buffIndex_bounded : ∀ l : List Nat,
    (feedMany initDecoder l).2.buffIndex ≤ 14 ∧
    (feedMany initDecoder l).2.buffer.length = MAX_BUFFER_LENGTH ∧
    14 < MAX_BUFFER_LENGTH := by
  intro l
  obtain ⟨h1, h2⟩ := decInv_run l initDecoder ⟨rfl, by decide⟩
  refine ⟨?_, h2, by decide⟩
  rw [h1]
  cases (feedMany initDecoder l).2.msgState <;> decide

/-- The completed standard-TIC frame `SINSTS<TAB>00123<TAB>L` as the
decoder holds it right before the terminating CR: 14 captured bytes, and
the checksum byte 0x4C = 76 = ((748 & 0x3F) + 0x20). -/
def goodFrame : DecoderState :=
  ⟨MsgState.waitCR, 14,
   [0x53, 0x49, 0x4E, 0x53, 0x54, 0x53, 9, 48, 48, 49, 50, 51, 9, 76,
    0, 0, 0, 0, 0, 0]⟩

/-- The same completed frame with the wrong checksum byte 0x21 = 33. -/
def badFrame : DecoderState :=
  ⟨MsgState.waitCR, 14,
   [0x53, 0x49, 0x4E, 0x53, 0x54, 0x53, 9, 48, 48, 49, 50, 51, 9, 33,
    0, 0, 0, 0, 0, 0]⟩

/-- Counterexample to claim C1 as stated: for a completed frame that the
validator already rejects, mutating a covered byte (here the first digit
0x30 to 0x31) changes the masked sum yet does not flip acceptance — the
frame is still rejected. -/
theorem C1_counterexample :
    isChecksumGood badFrame = false ∧
    isChecksumGood ⟨MsgState.waitCR, 14, badFrame.buffer.set 7 49⟩ = false ∧
    ((badFrame.buffer.set 7 49).take 13).sum &&& 0x3F ≠
      (badFrame.buffer.take 13).sum &&& 0x3F := by
  decide

/-- Claim C1 (amended): the validator accepts a completed frame iff the
trailing captured byte equals the sum of every captured byte preceding it,
masked to the low 6 bits, plus 0x20; and mutating any covered byte of an
accepted frame while holding the trailing byte fixed flips acceptance to
rejection unless the masked sum is unchanged, in which case the frame
stays accepted. -/
theorem C1_checksum_exactness (s : DecoderState) (i c : Nat)
    (h : 0 < s.buffIndex) :
    (isChecksumGood s = true ↔
      s.buffer.getD (s.buffIndex - 1) 0 =
        ((s.buffer.take (s.buffIndex - 1)).sum &&& 0x3F) + 0x20) ∧
    (i < s.buffIndex - 1 → isChecksumGood s = true →
      (isChecksumGood ⟨s.msgState, s.buffIndex, s.buffer.set i c⟩ = true ↔
        ((s.buffer.set i c).take (s.buffIndex - 1)).sum &&& 0x3F =
          (s.buffer.take (s.buffIndex - 1)).sum &&& 0x3F)) := by
  have hne0 : s.buffIndex ≠ 0 := Nat.pos_iff_ne_zero.mp h
  constructor
  · simp [isChecksumGood, hne0]
  · intro hi hacc
    have hne : i ≠ s.buffIndex - 1 := by omega
    have htrail : (s.buffer.set i c).getD (s.buffIndex - 1) 0 =
        s.buffer.getD (s.buffIndex - 1) 0 := by
      rw [List.getD_eq_getElem?_getD, List.getD_eq_getElem?_getD,
        List.getElem?_set_ne hne]
    have h1 : s.buffer.getD (s.buffIndex - 1) 0 =
        ((s.buffer.take (s.buffIndex - 1)).sum &&& 0x3F) + 0x20 := by
      simpa [isChecksumGood, hne0] using hacc
    simp only [isChecksumGood, hne0, if_false, decide_eq_true_eq, htrail, h1]
    generalize ((s.buffer.set i c).take (s.buffIndex - 1)).sum &&& 0x3F = A
    generalize (s.buffer.take (s.buffIndex - 1)).sum &&& 0x3F = B
    omega

/-- Witness for C1 (amended): the concrete frame `goodFrame` is accepted,
through the characterisation applied at buffer position 0 and byte 84. -/
theorem C1_witness : isChecksumGood goodFrame = true :=
  (C1_checksum_exactness goodFrame 0 84 (by decide)).1.mpr (by decide)

/-- Accumulating digit parse: the digit-consuming loop of the Arduino
`String::toInt` (C `atol`) applied to a byte list. Stops at the first
non-digit byte. -/
def parseDigitsAcc : List Nat → Int → Int
  | [], acc => acc
  | cb :: rest, acc =>
      if 0x30 ≤ cb ∧ cb ≤ 0x39 then
        parseDigitsAcc rest (acc * 10 + ((cb : Int) - 0x30))
      else acc

/-- Arduino `String::toInt` (C `atol`) on a byte list: skip leading
whitespace, take an optional sign, then parse the leading run of decimal
digits (0 when there is none). This models the external library routine
used by `getData` (line 464); overflow cannot occur on the five-digit
fields read there. -/
def arduinoToInt (l : List Nat) : Int :=
  let l2 := l.dropWhile (fun cb => decide (cb = 0x20 ∨ (9 ≤ cb ∧ cb ≤ 13)))
  match l2 with
  | 0x2D :: rest => - parseDigitsAcc rest 0
  | 0x2B :: rest => parseDigitsAcc rest 0
  | _ => parseDigitsAcc l2 0

/-- `getData` (lines 451-465, standard-TIC branch): build the string from
`buffer[7] .. buffer[11]` and convert it with `toInt`. -/
def getData (s : DecoderState) : Int :=
  arduinoToInt ((s.buffer.drop 7).take 5)

theorem feedMany_append (s : DecoderState) (l1 l2 : List Nat) :
    feedMany s (l1 ++ l2) =
      ((feedMany s l1).1 ++ (feedMany (feedMany s l1).2 l2).1,
        (feedMany (feedMany s l1).2 l2).2) := by
  induction l1 generalizing s with
  | nil => simp [feedMany]
  | cons cb rest ih => simp [feedMany, ih]

/-- The first 14 bytes of the example frame of the spec:
`LF 'S' 'I' 'N' 'S' 'T' 'S' TAB '0' '0' '1' '2' '3' TAB`. -/
def frameHead14 : List Nat :=
  [10, 0x53, 0x49, 0x4E, 0x53, 0x54, 0x53, 9, 48, 48, 49, 50, 51, 9]

/-- Buffer contents after capturing the 13 bytes of `frameHead14` that
follow the LF, in the zero-initialised array. -/
def buf13 : List Nat :=
  [0x53, 0x49, 0x4E, 0x53, 0x54, 0x53, 9, 48, 48, 49, 50, 51, 9,
   0, 0, 0, 0, 0, 0, 0]

theorem run_frameHead14 :
    feedMany initDecoder frameHead14 =
      (List.replicate 14 false, ⟨MsgState.waitChecksum, 13, buf13⟩) := by
  decide

theorem checksum_after_symbolic_byte (b : Nat) :
    isChecksumGood ⟨MsgState.waitCR, 14, buf13.set 13 b⟩ = decide (b = 76) := by
  have h1 : (buf13.set 13 b)[13]?.getD 0 = b := rfl
  have h2 : ((buf13.set 13 b).take 13).sum = 748 := rfl
  have h3 : ((748 : Nat) &&& 0x3F) + 0x20 = 76 := by decide
  simp [isChecksumGood, h2, h3, h1]

theorem feed_tail_symbolic (b : Nat) (hb0 : b ≠ 0) (hb : b ≠ 76) :
    feedMany ⟨MsgState.waitChecksum, 13, buf13⟩ [b, 13] =
      ([false, false], ⟨MsgState.waitLF, 0, buf13.set 13 b⟩) := by
  simp [feedMany, isNewMsgInBuffer, storeByte, resetDec, NUL, CR, hb0,
    checksum_after_symbolic_byte, hb]

/-- Counterexample to claim C3 as stated: with the checksum byte replaced
by the incorrect byte 0 the final parser state is not reset — the NUL is
ignored at the checksum position, the CR is then captured as the checksum
byte, and the decoder is left one state short, awaiting a CR. -/
theorem C3_counterexample :
    (0 : Nat) ≠ 76 ∧
    (feedMany initDecoder (frameHead14 ++ [0, 13])).2.msgState ≠
      MsgState.waitLF := by
  decide

/-- Claim C3 (amended): feeding
`LF S I N S T S TAB 0 0 1 2 3 TAB checksum CR` from the await-LF state
makes the decoder signal frame-ready exactly on the CR byte, after which
the extractor yields the reading 123; replacing the checksum byte by any
incorrect byte other than the ignored NUL makes every feed return false,
and leaves the parser state and buffer index reset. -/
theorem C3_example_frame (b : Nat) (hb0 : b ≠ 0) (hb : b ≠ 76) :
    ((feedMany initDecoder (frameHead14 ++ [76, 13])).1 =
        List.replicate 15 false ++ [true] ∧
      getData (feedMany initDecoder (frameHead14 ++ [76, 13])).2 = 123) ∧
    ((feedMany initDecoder (frameHead14 ++ [b, 13])).1 =
        List.replicate 16 false ∧
      (feedMany initDecoder (frameHead14 ++ [b, 13])).2.msgState =
        MsgState.waitLF ∧
      (feedMany initDecoder (frameHead14 ++ [b, 13])).2.buffIndex = 0) := by
  refine ⟨by constructor <;> decide, ?_⟩
  rw [feedMany_append, run_frameHead14]
  rw [feed_tail_symbolic b hb0 hb]
  refine ⟨?_, rfl, rfl⟩
  show List.replicate 14 false ++ [false, false] = List.replicate 16 false
  decide

/-- Witness for C3 (amended) at the incorrect checksum byte 77. -/
theorem C3_witness :
    (feedMany initDecoder (frameHead14 ++ [77, 13])).1 =
      List.replicate 16 false ∧
    (feedMany initDecoder (frameHead14 ++ [77, 13])).2.msgState =
      MsgState.waitLF :=
  ⟨(C3_example_frame 77 (by decide) (by decide)).2.1,
   (C3_example_frame 77 (by decide) (by decide)).2.2.1⟩

/-- Dimmer machine states (lines 136-140), one constructor per define. -/
inductive DimmerState where
  | idle
  | incrementation
  | stabilized
  | wait
  | decrementation
deriving DecidableEq

/-- MAX_DIMMER_PWR_INDEX (line 88). -/
def MAX_DIMMER_PWR_INDEX : Int := 31

/-- STABILIZED_TIMER in milliseconds (line 144). -/
def STABILIZED_TIMER : Nat := 60000

/-- The calibration table `dimmerPwr` (lines 89-122): 31 pairs of
(dimmer percentage, approximate watts). -/
def dimmerPwr : List (Int × Int) :=
  [(0, 0), (5, 32), (10, 49), (15, 72), (20, 102), (21, 108), (22, 117),
   (23, 121), (25, 136), (27, 151), (30, 170), (35, 211), (37, 230),
   (40, 245), (43, 270), (45, 283), (47, 300), (50, 317), (53, 349),
   (55, 353), (57, 370), (60, 385), (63, 411), (65, 419), (67, 432),
   (70, 440), (75, 466), (80, 479), (85, 491), (90, 494), (97, 494)]

/-- `dimmerPwr[i][1]`: the watts column of the calibration table. -/
def wattsAt (i : Int) : Int := (dimmerPwr.getD i.toNat (0, 0)).2

/-- `dimmerPwr[i][0]`: the percentage column of the calibration table. -/
def percentAt (i : Int) : Int := (dimmerPwr.getD i.toNat (0, 0)).1

/-- `a - b` on C `unsigned long` values: subtraction modulo 2^32, as used
for the elapsed-time computations on `millis()` readings. -/
def uSub (a b : Nat) : Nat := (a % 2 ^ 32 + 2 ^ 32 - b % 2 ^ 32) % 2 ^ 32

/-- The state transition of `processElectricalConsumption`
(lines 501-575): from the dimmer machine state, the current table index,
the stabilization timestamp, the current `millis()` reading and the
electrical consumption just read, compute the next table index (after the
final clamp of lines 571-573), the next dimmer machine state and the new
stabilization timestamp. `nextDimmerPwrIndex` is initialised to 0
(line 503), which is the value kept by the branches that do not assign
it. -/
def dimmerTransition (dState : DimmerState) (idx : Int) (stab now : Nat)
    (ec : Int) : Int × DimmerState × Nat :=
  let r : Int × DimmerState × Nat :=
    match dState with
    | DimmerState.idle =>
        if ec > 0 then (0, DimmerState.idle, stab)
        else (1, DimmerState.incrementation, stab)
    | DimmerState.incrementation =>
        if ec = 0 then (idx + 1, DimmerState.incrementation, stab)
        else if wattsAt idx > ec then
          (if idx > 0 then idx - 1 else 0, DimmerState.wait, stab)
        else (0, DimmerState.idle, stab)
    | DimmerState.wait => (idx, DimmerState.decrementation, stab)
    | DimmerState.decrementation =>
        if ec = 0 then (idx, DimmerState.stabilized, now)
        else if wattsAt idx > ec then
          (if idx > 0 then idx - 1 else 0, DimmerState.wait, stab)
        else (0, DimmerState.idle, stab)
    | DimmerState.stabilized =>
        if uSub now stab > STABILIZED_TIMER then
          (idx, DimmerState.incrementation, stab)
        else if ec = 0 then (idx, DimmerState.stabilized, stab)
        else if wattsAt idx > ec then
          (if idx > 0 then idx - 1 else 0, DimmerState.wait, stab)
        else (0, DimmerState.idle, stab)
  (if r.1 ≥ MAX_DIMMER_PWR_INDEX then MAX_DIMMER_PWR_INDEX - 1 else r.1,
   r.2.1, r.2.2)

/-- Controller-side global state: the dimmer machine state (line 142),
the current table index (line 87), the stabilization timestamp
(line 145), the timestamp of the last decision (line 151), both energy
accumulators (lines 125, 127), and the actuator outputs (the dimmer's
on/off state and percentage set in lines 608-617). -/
structure CtrlState where
  dimmerState : DimmerState
  dimmerPwrIndex : Int
  dimmerStabilized : Nat
  previous : Nat
  cumulRoutedPowerWh : ℚ
  cumulNetworkPowerWh : ℚ
  dimmerOn : Bool
  dimmerPower : Int

/-- `processDimmerPwrIndex` (lines 581-627): update the energy
accumulators using the table watts of the index in force before the
decision and the elapsed time since the previous decision, advance
`previous`, install the next index, and drive the actuator (off iff the
next index's table watts are 0, percentage from the table). `reading`
stands for the value of `getData()`, which the function calls twice on an
unchanged buffer; the C floats are modelled as exact rationals. -/
def processDimmerPwrIndex (s : CtrlState) (reading : Int)
    (nextDimmerPwrIndex : Int) (now : Nat) : CtrlState :=
  let delta : ℚ := (uSub now s.previous : Nat)
  let routed : ℚ :=
    if reading = 0 then
      s.cumulRoutedPowerWh + (wattsAt s.dimmerPwrIndex : ℚ) * delta / 3600000
    else s.cumulRoutedPowerWh
  let network : ℚ :=
    if reading ≠ 0 ∧ wattsAt s.dimmerPwrIndex > 0 then
      s.cumulNetworkPowerWh + (reading : ℚ) * delta / 3600000
    else s.cumulNetworkPowerWh
  { dimmerState := s.dimmerState
    dimmerPwrIndex := nextDimmerPwrIndex
    dimmerStabilized := s.dimmerStabilized
    previous := now
    cumulRoutedPowerWh := routed
    cumulNetworkPowerWh := network
    dimmerOn := decide (wattsAt nextDimmerPwrIndex ≠ 0)
    dimmerPower := percentAt nextDimmerPwrIndex }

/-- `processElectricalConsumption` (lines 501-576) on the controller
state: run the dimmer state transition on the reading, then hand the
clamped next index to `processDimmerPwrIndex`. The two `millis()` calls
of the source (line 549 and line 582) are modelled by the single `now`
parameter. -/
def processElectricalConsumption (s : CtrlState) (reading : Int)
    (now : Nat) : CtrlState :=
  let r := dimmerTransition s.dimmerState s.dimmerPwrIndex
    s.dimmerStabilized now reading
  processDimmerPwrIndex
    { s with dimmerState := r.2.1, dimmerStabilized := r.2.2 }
    reading r.1 now

/-- Whole-sketch state: the decoder globals plus the controller
globals. -/
structure SysState where
  dec : DecoderState
  ctrl : CtrlState

/-- One iteration of the inner `while (linky.available())` body of
`loop()` (lines 684-693) for one received byte `val`: mask the byte to
7 bits, feed it to the decoder, and run the controller only when a new
validated message is signalled. -/
def loopStep (s : SysState) (val : Nat) (now : Nat) : SysState :=
  let r := isNewMsgInBuffer s.dec (val &&& 0x7F)
  if r.1 then ⟨r.2, processElectricalConsumption s.ctrl (getData r.2) now⟩
  else ⟨r.2, s.ctrl⟩

/-- Claim C4: from any dimmer machine state, any timestamps and any
reading, if the current table index is non-negative then the index
selected by the decision (after the final clamp) lies in
[0, MAX_DIMMER_PWR_INDEX - 1], so indexing the calibration table with it
is in bounds. -/
theorem C4_index_clamped (dState : DimmerState) (idx : Int) (stab now : Nat)
    (ec : Int) (h : 0 ≤ idx) :
    0 ≤ (dimmerTransition dState idx stab now ec).1 ∧
    (dimmerTransition dState idx stab now ec).1 < MAX_DIMMER_PWR_INDEX ∧
    ((dimmerTransition dState idx stab now ec).1).toNat < dimmerPwr.length := by
  have hlen : dimmerPwr.length = 31 := rfl
  rw [hlen]
  cases dState <;>
    simp only [dimmerTransition, MAX_DIMMER_PWR_INDEX] <;>
    split_ifs <;>
    refine ⟨by omega, by omega, by omega⟩

/-- Witness for C4: from Idle at index 0 with reading 0 the selected
index is in range. -/
theorem C4_witness :
    0 ≤ (dimmerTransition DimmerState.idle 0 0 0 0).1 ∧
    (dimmerTransition DimmerState.idle 0 0 0 0).1 < MAX_DIMMER_PWR_INDEX ∧
    ((dimmerTransition DimmerState.idle 0 0 0 0).1).toNat <
      dimmerPwr.length :=
  C4_index_clamped DimmerState.idle 0 0 0 0 (by decide)

theorem wattsAt_nonneg (i : Int) : 0 ≤ wattsAt i := by
  unfold wattsAt
  rcases Nat.lt_or_ge i.toNat 31 with hlt | hge
  · have hall : ∀ n, n < 31 → 0 ≤ (dimmerPwr.getD n (0, 0)).2 := by decide
    exact hall _ hlt
  · rw [List.getD_eq_default]
    exact Nat.le_of_eq rfl |>.trans hge

/-- Claim C8: in the Incrementing state, a nonzero reading of 50 while
the current index's table watts are 0 takes the final otherwise branch:
next state Idle and next index 0, not the Wait path. -/
theorem C8_incrementing_overrun (idx : Int) (stab now : Nat)
    (h : wattsAt idx = 0) :
    dimmerTransition DimmerState.incrementation idx stab now 50 =
      (0, DimmerState.idle, stab) := by
  simp [dimmerTransition, h, MAX_DIMMER_PWR_INDEX]

/-- Witness for C8 at index 0, whose table watts are 0. -/
theorem C8_witness :
    dimmerTransition DimmerState.incrementation 0 0 0 50 =
      (0, DimmerState.idle, 0) :=
  C8_incrementing_overrun 0 0 0 (by decide)

/-- Claim C5: on a decision at time `now` with previous decision time
`previous ≤ now` (no wrap), a zero reading adds exactly
previous-level-watts x Dt / 3600000 to the routed total and leaves the
network total unchanged; a nonzero reading with nonzero previous-level
watts adds exactly reading x Dt / 3600000 to the network total and
leaves the routed total unchanged; the watts used are those of the index
in force before the decision. -/
theorem C5_energy_accounting (s : CtrlState) (reading nextIdx : Int)
    (now : Nat) (h1 : s.previous ≤ now) (h2 : now < 2 ^ 32) :
    (reading = 0 →
      (processDimmerPwrIndex s reading nextIdx now).cumulRoutedPowerWh =
        s.cumulRoutedPowerWh +
          (wattsAt s.dimmerPwrIndex : ℚ) * ((now - s.previous : Nat) : ℚ) /
            3600000 ∧
      (processDimmerPwrIndex s reading nextIdx now).cumulNetworkPowerWh =
        s.cumulNetworkPowerWh) ∧
    (reading ≠ 0 → wattsAt s.dimmerPwrIndex ≠ 0 →
      (processDimmerPwrIndex s reading nextIdx now).cumulNetworkPowerWh =
        s.cumulNetworkPowerWh +
          (reading : ℚ) * ((now - s.previous : Nat) : ℚ) / 3600000 ∧
      (processDimmerPwrIndex s reading nextIdx now).cumulRoutedPowerWh =
        s.cumulRoutedPowerWh) := by
  have hd : uSub now s.previous = now - s.previous := by
    unfold uSub
    have hp : (2 : Nat) ^ 32 = 4294967296 := by norm_num
    rw [hp]
    omega
  constructor
  · intro hr
    simp [processDimmerPwrIndex, hr, hd]
  · intro hr hw
    have hw2 : wattsAt s.dimmerPwrIndex > 0 :=
      lt_of_le_of_ne (wattsAt_nonneg _) (Ne.symm hw)
    simp [processDimmerPwrIndex, hr, hw2, hd]

/-- A concrete controller state for witnesses: Idle, index 0, all
timestamps and accumulators zero, actuator off. -/
def ctrl0 : CtrlState :=
  ⟨DimmerState.idle, 0, 0, 0, 0, 0, false, 0⟩

/-- Witness for C5: a zero reading two hours after the previous decision
adds watts x 2 to the routed total and leaves the network total
unchanged. -/
theorem C5_witness :
    (processDimmerPwrIndex ctrl0 0 1 7200000).cumulRoutedPowerWh =
      ctrl0.cumulRoutedPowerWh +
        (wattsAt ctrl0.dimmerPwrIndex : ℚ) *
          ((7200000 - ctrl0.previous : Nat) : ℚ) / 3600000 ∧
    (processDimmerPwrIndex ctrl0 0 1 7200000).cumulNetworkPowerWh =
      ctrl0.cumulNetworkPowerWh :=
  (C5_energy_accounting ctrl0 0 1 7200000 (by decide) (by decide)).1 rfl

/-- Claim C7: on any byte for which the decoder does not signal a
validated frame, the whole controller state — dimmer machine state,
current index, both energy accumulators, decision timestamp and actuator
outputs — is left unchanged; only the decoder state advances. -/
theorem C7_no_update_without_frame (s : SysState) (val now : Nat)
    (h : (isNewMsgInBuffer s.dec (val &&& 0x7F)).1 = false) :
    (loopStep s val now).ctrl = s.ctrl ∧
    (loopStep s val now).dec = (isNewMsgInBuffer s.dec (val &&& 0x7F)).2 := by
  simp [loopStep, h]

/-- Witness for C7: the byte `A` in the initial state leaves the
controller untouched. -/
theorem C7_witness :
    (loopStep ⟨initDecoder, ctrl0⟩ 65 0).ctrl = ctrl0 :=
  (C7_no_update_without_frame ⟨initDecoder, ctrl0⟩ 65 0 (by decide)).1
